import Mathlib

/-!
Shallow embedding of the `printpdf_utils` layout library (`src/lib.rs`).

Real-number (`f64`) arithmetic of the source is embedded as exact rational
arithmetic over `ℚ`; all the constants of the source (`0.5`, `0.25`, `1.0`,
`7.5`) are exactly representable.  Rust panics (index guards, `unwrap` on an
empty row list) are embedded as `Except LayoutError` failures.  The rendering
collaborator (`printpdf` document/layer handles) is embedded as an event trace:
each drawing call of the source appends one `RenderEvent`.
-/

/-- Embeds `struct PageSize` of `src/lib.rs`. -/
structure PageSize where
  width : ℚ
  height : ℚ
  margin_width : ℚ
  margin_height : ℚ
deriving DecidableEq, Repr

/-- `PageSize::A1`. -/
def PageSize.A1 : PageSize := { width := 594, height := 841, margin_width := 10, margin_height := 10 }

/-- `PageSize::A2`. -/
def PageSize.A2 : PageSize := { width := 420, height := 594, margin_width := 10, margin_height := 10 }

/-- `PageSize::A3`. -/
def PageSize.A3 : PageSize := { width := 297, height := 420, margin_width := 10, margin_height := 10 }

/-- `PageSize::A4`. -/
def PageSize.A4 : PageSize := { width := 210, height := 297, margin_width := 10, margin_height := 10 }

/-- `PageSize::A5`. -/
def PageSize.A5 : PageSize := { width := 148, height := 210, margin_width := 10, margin_height := 10 }

/-- Embeds `struct Column` of `src/lib.rs`. -/
structure Column where
  width : Nat
deriving DecidableEq, Repr

/-- `Column::default`. -/
def Column.default : Column := { width := 1 }

/-- Embeds `struct Table` of `src/lib.rs`. -/
structure Table where
  rows : List (List String)
  columns : List Column
  position_y : ℚ
  max_columns : Nat
  borders : Bool
  row_height : ℚ
deriving DecidableEq, Repr

/-- `Table::default(position)`. -/
def Table.default (position : ℚ) : Table :=
  { columns := [{ width := 6 }, { width := 2 }, { width := 2 }, { width := 2 }],
    rows := [],
    position_y := position,
    max_columns := 12,
    borders := false,
    row_height := 7.5 }

/-- The failure modes of the library: the index-guard panics of the coordinate
functions and of `add_table`, and the barcode/image failures. -/
inductive LayoutError where
  | IndexOutOfRange
  | EncodingError
  | ImageDecodeError
deriving DecidableEq, Repr

/-- Embeds `calculate_column_coordinates` (src/lib.rs:112-125).  The Rust
`panic!` on `column_index >= columns` is embedded as an `IndexOutOfRange`
error; `inner_height.min(y)` is `min inner_height y`. -/
def calculate_column_coordinates (page_size : PageSize) (column_index : Nat)
    (columns : Nat) (y : ℚ) : Except LayoutError (ℚ × ℚ) :=
  if column_index ≥ columns then
    .error .IndexOutOfRange
  else
    let inner_width := page_size.width - page_size.margin_width * 2
    let inner_height := page_size.height - page_size.margin_height * 2
    let column_size := inner_width / (columns : ℚ)
    let x := page_size.margin_width + column_size * (column_index : ℚ)
    let y := min inner_height y
    .ok (x, y)

/-- Embeds `calculate_border_points` (src/lib.rs:127-148).  A `printpdf`
`(Point, bool)` pair is embedded as `((x, y), bezier_flag)`. -/
def calculate_border_points (page_size : PageSize) (table : Table)
    (column_index : Nat) (row_num : Nat) : Except LayoutError (List ((ℚ × ℚ) × Bool)) :=
  if row_num ≥ table.rows.length then
    .error .IndexOutOfRange
  else if column_index ≥ table.columns.length then
    .error .IndexOutOfRange
  else
    let border_padding := table.row_height * 0.5
    let inner_width := page_size.width - page_size.margin_width * 2
    let column_size := inner_width / (table.max_columns : ℚ)
    let y := table.position_y - border_padding - (row_num : ℚ) * table.row_height
    let x := page_size.margin_width +
      ((table.columns.take column_index).map (fun w => (w.width : ℚ) * column_size)).sum
    let right_x := page_size.margin_width +
      ((table.columns.take (column_index + 1)).map (fun w => (w.width : ℚ) * column_size)).sum
    .ok [((x, y), false),
         ((right_x, y), false),
         ((right_x, y - table.row_height), false),
         ((x, y - table.row_height), false)]

/-- Embeds `calculate_cell_coordinates` (src/lib.rs:150-172). -/
def calculate_cell_coordinates (page_size : PageSize) (table : Table)
    (column_index : Nat) (row_num : Nat) : Except LayoutError (ℚ × ℚ) :=
  if row_num ≥ table.rows.length then
    .error .IndexOutOfRange
  else if column_index ≥ table.columns.length then
    .error .IndexOutOfRange
  else
    let border_padding := if table.borders then table.row_height * 0.25 else 0
    let cell_padding : ℚ := if table.borders then 1 else 0
    let inner_width := page_size.width - page_size.margin_width * 2
    let column_size := inner_width / (table.max_columns : ℚ)
    let y := table.position_y - ((row_num : ℚ) + 1) * table.row_height - cell_padding
    let x := page_size.margin_width +
      ((table.columns.take column_index).map (fun w => (w.width : ℚ) * column_size)).sum +
      border_padding
    .ok (x, y)

/-- One call into the rendering collaborator made by `add_table`:
`doc.add_page`, `layer.add_shape` on border points, or `layer.use_text`
(the final `Bool` of `drawText` records whether the bold font was used). -/
inductive RenderEvent where
  | newPage (width height : ℚ) (label : String)
  | drawBorder (points : List ((ℚ × ℚ) × Bool))
  | drawText (text : String) (font_size : ℚ) (x y : ℚ) (bold : Bool)
deriving DecidableEq, Repr

/-- Whether an event is a `doc.add_page` request. -/
def RenderEvent.isNewPage : RenderEvent → Bool
  | .newPage _ _ _ => true
  | _ => false

/-- The mutable state of one `add_table` run: the table (whose `position_y`
field is the only mutable table field), the local variables `current_y`,
`page_num`, `current_row`, `print_header`, the current layer handle
(a counter: `doc.add_page` hands out the next layer), and the trace of
rendering-collaborator calls made so far. -/
structure AddTableState where
  table : Table
  current_y : ℚ
  page_num : Nat
  current_row : Nat
  print_header : Bool
  layer : Nat
  events : List RenderEvent
deriving DecidableEq, Repr

/-- The page-break block of `add_table` (src/lib.rs:184-191): bump
`page_num`, request a new page and layer, record the row offset, flag the
header reprint and reset the table's `position_y`. -/
def pageBreak (ps : PageSize) (r_index : Nat) (s : AddTableState) : AddTableState :=
  { s with
    page_num := s.page_num + 1,
    layer := s.layer + 1,
    current_row := r_index,
    print_header := true,
    table := { s.table with position_y := ps.height - ps.margin_height },
    events := s.events ++ [RenderEvent.newPage ps.width ps.height (toString (s.page_num + 1))] }

/-- The `if table.borders { ... add_shape ... }` prelude of one cell
(src/lib.rs:194-203 and 214-222): with borders on, compute the border
rectangle and emit one `drawBorder` event, propagating the index-guard
failure; with borders off, emit nothing. -/
def border_part (ps : PageSize) (t : Table) (c_index row_local : Nat) :
    Except LayoutError (List RenderEvent) :=
  if t.borders then
    (calculate_border_points ps t c_index row_local).bind fun pts =>
      .ok [RenderEvent.drawBorder pts]
  else .ok []

/-- One `for (c_index, cell)` cell-drawing loop of `add_table`
(src/lib.rs:193-207 and 213-227), starting at column `c_index` with vertical
cursor `cy`: draw an optional border rectangle and the cell text for each
cell, updating `current_y` to each cell's y.  Returns the emitted events and
the final `current_y`. -/
def draw_cells_from (ps : PageSize) (t : Table) (row_local : Nat) (bold : Bool) :
    List String → Nat → ℚ → Except LayoutError (List RenderEvent × ℚ)
  | [], _, cy => .ok ([], cy)
  | cell :: rest, c_index, _cy =>
    (border_part ps t c_index row_local).bind fun bevs =>
    (calculate_cell_coordinates ps t c_index row_local).bind fun xy =>
    (draw_cells_from ps t row_local bold rest (c_index + 1) xy.2).bind fun ec =>
    .ok (bevs ++ RenderEvent.drawText cell 12 xy.1 xy.2 bold :: ec.1, ec.2)

/-- A full cell-drawing loop over one row, starting at column 0. -/
def draw_cells (ps : PageSize) (t : Table) (row_local : Nat) (bold : Bool)
    (cells : List String) (cy : ℚ) : Except LayoutError (List RenderEvent × ℚ) :=
  draw_cells_from ps t row_local bold cells 0 cy

/-- One iteration of the `for (r_index, row)` loop of `add_table`
(src/lib.rs:183-228): optional page break, optional header reprint (skipping
the data row when `r_index == 0`, the source's `continue`), then the data
row's cells. -/
def add_table_step (ps : PageSize) (headers : List String) (r_index : Nat)
    (row : List String) (s : AddTableState) : Except LayoutError AddTableState :=
  let s1 := if s.current_y ≤ ps.margin_height + 7.5 then pageBreak ps r_index s else s
  if s1.print_header then
    (draw_cells ps s1.table (r_index - s1.current_row) true headers s1.current_y).bind fun hc =>
    let s2 : AddTableState :=
      { s1 with events := s1.events ++ hc.1, current_y := hc.2, print_header := false }
    if r_index = 0 then .ok s2
    else
      (draw_cells ps s2.table (r_index + min s2.page_num 1 - s2.current_row)
        false row s2.current_y).bind fun rc =>
      .ok { s2 with events := s2.events ++ rc.1, current_y := rc.2 }
  else
    (draw_cells ps s1.table (r_index + min s1.page_num 1 - s1.current_row)
      false row s1.current_y).bind fun rc =>
    .ok { s1 with events := s1.events ++ rc.1, current_y := rc.2 }

/-- The row loop of `add_table`: `r` is the enumeration index `r_index`. -/
def add_table_rows (ps : PageSize) (headers : List String) :
    Nat → List (List String) → AddTableState → Except LayoutError AddTableState
  | _, [], s => .ok s
  | r, row :: rest, s =>
    (add_table_step ps headers r row s).bind fun s' =>
    add_table_rows ps headers (r + 1) rest s'

/-- The initial state of an `add_table` run (src/lib.rs:175-179). -/
def add_table_init (t : Table) (y : ℚ) : AddTableState :=
  { table := t, current_y := y, page_num := 0, current_row := 0,
    print_header := true, layer := 0, events := [] }

/-- Embeds `add_table` (src/lib.rs:174-230).  `table.rows.get(0).unwrap()`
panics when the row list is empty; this is embedded as an `IndexOutOfRange`
failure.  The returned state carries the final `current_y`, the final layer
handle and the updated table. -/
def add_table (t : Table) (ps : PageSize) (y : ℚ) : Except LayoutError AddTableState :=
  match t.rows.head? with
  | none => .error .IndexOutOfRange
  | some headers => add_table_rows ps headers 0 t.rows (add_table_init t y)

/-- Modelled from the spec: the Code 128 symbology tables live in the external
`barcoders` crate, which is not part of this repository.  The spec only fixes
that the symbology accepts an alphanumeric-safe subset of characters. -/
def code128_supported (c : Char) : Bool := c.isAlphanum

/-- Modelled from the spec: the bar/space module pattern of one character.
The real pattern table is in the external `barcoders` crate; the spec fixes
only that each supported character contributes a fixed-width run of modules,
so the pattern is modelled as eleven modules derived from the character
code. -/
def code128_char_modules (c : Char) : List Bool :=
  (List.range 11).map (fun i => Nat.testBit c.toNat i)

/-- Modelled from the spec: the Code 128 start pattern (eleven modules). -/
def code128_start : List Bool :=
  [true, true, false, true, false, false, true, false, false, false, false]

/-- Modelled from the spec: the Code 128 stop pattern (thirteen modules). -/
def code128_stop : List Bool :=
  [true, true, false, false, false, true, true, true, false, true, false, true, true]

/-- Modelled from the spec: `Code128::new(content)` followed by `encode()`
(`barcoders` crate, external to this repository): encoding fails with
`EncodingError` when the content is empty or contains a character the
symbology does not support; otherwise it yields the module sequence
start ++ per-character patterns ++ stop. -/
def code128_encode (content : String) : Except LayoutError (List Bool) :=
  if content.isEmpty then
    .error .EncodingError
  else if content.data.all code128_supported then
    .ok (code128_start ++ content.data.flatMap code128_char_modules ++ code128_stop)
  else
    .error .EncodingError

/-- A raster image: `width * height` pixels, row major, `true` = black. -/
structure PixelBuffer where
  width : Nat
  height : Nat
  pixels : List (List Bool)
deriving DecidableEq, Repr

/-- Modelled from the spec: `generate_buffer` of the `barcoders` crate —
every module becomes one pixel column spanning the full requested height. -/
def rasterize_modules (modules : List Bool) (height : Nat) : PixelBuffer :=
  { width := modules.length, height := height, pixels := List.replicate height modules }

/-- Embeds `generate_barcode` (src/lib.rs:232-243), over the spec-modelled
symbology: encode the content and rasterize the module sequence at the
requested height.  The source's `unwrap` on an encoding failure is embedded
as error propagation. -/
def generate_barcode (content : String) (height : Nat) : Except LayoutError PixelBuffer :=
  match code128_encode content with
  | .error e => .error e
  | .ok modules => .ok (rasterize_modules modules height)

/-- A concrete bordered one-cell table used as a test vector below. -/
def cexTable : Table :=
  { rows := [["x"]], columns := [{ width := 12 }], position_y := 100,
    max_columns := 12, borders := true, row_height := 7.5 }

/-- A concrete borderless one-row table used as a test vector below. -/
def wTable : Table :=
  { rows := [["h"]], columns := [{ width := 12 }], position_y := 100,
    max_columns := 12, borders := false, row_height := 7.5 }

/-- The final state of `add_table wTable PageSize.A4 100`: one header cell
drawn, no page break. -/
def wState : AddTableState :=
  { table := wTable, current_y := 92.5, page_num := 0, current_row := 0,
    print_header := false, layer := 0,
    events := [RenderEvent.drawText "h" 12 10 92.5 true] }

/-- A concrete borderless two-row table used as a test vector below. -/
def wT2 : Table :=
  { rows := [["H"], ["a"]], columns := [{ width := 12 }], position_y := 50,
    max_columns := 12, borders := false, row_height := 7.5 }

/-- A mid-run state of an `add_table` run over `wT2` whose cursor is
exhausted (`current_y = 0`), about to process the row of index 1. -/
def wBreakState : AddTableState :=
  { table := wT2, current_y := 0, page_num := 0, current_row := 0,
    print_header := false, layer := 0, events := [] }

/-- The state after `add_table_step` processes row 1 from `wBreakState`:
one page break, the header redrawn at the top of the new page, then the
data row below it. -/
def wBreakOut : AddTableState :=
  { table := { wT2 with position_y := 287 }, current_y := 272, page_num := 1,
    current_row := 1, print_header := false, layer := 1,
    events := [RenderEvent.newPage 210 297 (toString 1),
               RenderEvent.drawText "H" 12 10 279.5 true,
               RenderEvent.drawText "a" 12 10 272 false] }

/- ------------------------------------------------------------------ -/
/- Helper lemmas (shared evaluation facts about the embedded code).   -/
/- ------------------------------------------------------------------ -/

/-- Closed form of `calculate_cell_coordinates` on in-range indices. -/
theorem calculate_cell_coordinates_eq (ps : PageSize) (t : Table) (c r : Nat)
    (hr : r < t.rows.length) (hc : c < t.columns.length) :
    calculate_cell_coordinates ps t c r = .ok
      (ps.margin_width +
         ((t.columns.take c).map (fun col => (col.width : ℚ))).sum *
           ((ps.width - ps.margin_width * 2) / (t.max_columns : ℚ)) +
         (if t.borders then t.row_height * 0.25 else 0),
       t.position_y - ((r : ℚ) + 1) * t.row_height - (if t.borders then 1 else 0)) := by
  unfold calculate_cell_coordinates
  rw [if_neg (by omega), if_neg (by omega)]
  simp only [List.sum_map_mul_right]

/-- Closed form of `calculate_border_points` on in-range indices. -/
theorem calculate_border_points_eq (ps : PageSize) (t : Table) (c r : Nat)
    (hr : r < t.rows.length) (hc : c < t.columns.length) :
    calculate_border_points ps t c r = .ok
      [((ps.margin_width + ((t.columns.take c).map (fun col => (col.width : ℚ))).sum *
           ((ps.width - ps.margin_width * 2) / (t.max_columns : ℚ)),
         t.position_y - t.row_height * 0.5 - (r : ℚ) * t.row_height), false),
       ((ps.margin_width + ((t.columns.take (c + 1)).map (fun col => (col.width : ℚ))).sum *
           ((ps.width - ps.margin_width * 2) / (t.max_columns : ℚ)),
         t.position_y - t.row_height * 0.5 - (r : ℚ) * t.row_height), false),
       ((ps.margin_width + ((t.columns.take (c + 1)).map (fun col => (col.width : ℚ))).sum *
           ((ps.width - ps.margin_width * 2) / (t.max_columns : ℚ)),
         t.position_y - t.row_height * 0.5 - (r : ℚ) * t.row_height - t.row_height), false),
       ((ps.margin_width + ((t.columns.take c).map (fun col => (col.width : ℚ))).sum *
           ((ps.width - ps.margin_width * 2) / (t.max_columns : ℚ)),
         t.position_y - t.row_height * 0.5 - (r : ℚ) * t.row_height - t.row_height), false)] := by
  unfold calculate_border_points
  rw [if_neg (by omega), if_neg (by omega)]
  simp only [List.sum_map_mul_right]

/-- Inversion of a successful `Except.bind`. -/
theorem except_bind_ok {α β : Type} {x : Except LayoutError α}
    {f : α → Except LayoutError β} {b : β} (h : x.bind f = .ok b) :
    ∃ a, x = .ok a ∧ f a = .ok b := by
  cases x with
  | error e => exact absurd h (fun hh => Except.noConfusion hh)
  | ok a => exact ⟨a, rfl, h⟩

/-- `border_part` only emits `drawBorder` events. -/
theorem border_part_no_newPage (ps : PageSize) (t : Table) (c_index row_local : Nat)
    (evs : List RenderEvent) (h : border_part ps t c_index row_local = .ok evs) :
    ∀ e ∈ evs, e.isNewPage = false := by
  unfold border_part at h
  by_cases hb : t.borders
  · rw [if_pos hb] at h
    obtain ⟨pts, _, h⟩ := except_bind_ok h
    injection h with h
    intro e he
    rw [← h] at he
    rcases List.mem_singleton.mp he with rfl
    rfl
  · rw [if_neg hb] at h
    injection h with h
    intro e he
    rw [← h] at he
    exact absurd he (List.not_mem_nil e)

/-- The cell-drawing loop never requests a new page. -/
theorem draw_cells_from_no_newPage (ps : PageSize) (t : Table) (row_local : Nat)
    (bold : Bool) :
    ∀ (cells : List String) (c_index : Nat) (cy cy' : ℚ) (evs : List RenderEvent),
      draw_cells_from ps t row_local bold cells c_index cy = .ok (evs, cy') →
      ∀ e ∈ evs, e.isNewPage = false := by
  intro cells
  induction cells with
  | nil =>
    intro c_index cy cy' evs h e he
    unfold draw_cells_from at h
    injection h with h
    injection h with h1 h2
    rw [← h1] at he
    exact absurd he (List.not_mem_nil e)
  | cons cell rest ih =>
    intro c_index cy cy' evs h e he
    unfold draw_cells_from at h
    obtain ⟨bevs, hbp, h⟩ := except_bind_ok h
    obtain ⟨xy, hcc, h⟩ := except_bind_ok h
    obtain ⟨ec, hrec, h⟩ := except_bind_ok h
    injection h with h
    injection h with h1 h2
    rw [← h1] at he
    rcases List.mem_append.mp he with h1m | h1m
    · exact border_part_no_newPage ps t c_index row_local bevs hbp e h1m
    · rcases List.mem_cons.mp h1m with rfl | h2m
      · rfl
      · exact ih (c_index + 1) xy.2 ec.2 ec.1 hrec e h2m

/-- `draw_cells` never requests a new page. -/
theorem draw_cells_no_newPage (ps : PageSize) (t : Table) (row_local : Nat)
    (bold : Bool) (cells : List String) (cy cy' : ℚ) (evs : List RenderEvent)
    (h : draw_cells ps t row_local bold cells cy = .ok (evs, cy')) :
    ∀ e ∈ evs, e.isNewPage = false :=
  draw_cells_from_no_newPage ps t row_local bold cells 0 cy cy' evs h

/-- On an exhausted cursor, `add_table_step` is: page break, header redraw at
row-local index 0, and (except at the header row itself) the data row at
row-local index 1. -/
theorem add_table_step_break_eq (ps : PageSize) (headers : List String) (r : Nat)
    (row : List String) (s : AddTableState)
    (hle : s.current_y ≤ ps.margin_height + 7.5) :
    add_table_step ps headers r row s =
      (draw_cells ps { s.table with position_y := ps.height - ps.margin_height } 0 true
          headers s.current_y).bind fun hc =>
        if r = 0 then
          .ok { table := { s.table with position_y := ps.height - ps.margin_height },
                current_y := hc.2, page_num := s.page_num + 1, current_row := r,
                print_header := false, layer := s.layer + 1,
                events := (s.events ++
                  [RenderEvent.newPage ps.width ps.height (toString (s.page_num + 1))]) ++ hc.1 }
        else
          (draw_cells ps { s.table with position_y := ps.height - ps.margin_height } 1 false
              row hc.2).bind fun rc =>
            .ok { table := { s.table with position_y := ps.height - ps.margin_height },
                  current_y := rc.2, page_num := s.page_num + 1, current_row := r,
                  print_header := false, layer := s.layer + 1,
                  events := ((s.events ++
                    [RenderEvent.newPage ps.width ps.height (toString (s.page_num + 1))]) ++
                    hc.1) ++ rc.1 } := by
  unfold add_table_step
  rw [if_pos hle]
  simp only [pageBreak, Nat.sub_self, if_true,
    show min (s.page_num + 1) 1 = 1 from by omega,
    show r + 1 - r = 1 from by omega]

/-- With enough vertical space left, `add_table_step` performs no page
break: it only draws (header and/or data row) at the current offsets. -/
theorem add_table_step_nobreak_eq (ps : PageSize) (headers : List String) (r : Nat)
    (row : List String) (s : AddTableState)
    (hgt : ¬ s.current_y ≤ ps.margin_height + 7.5) :
    add_table_step ps headers r row s =
      if s.print_header then
        (draw_cells ps s.table (r - s.current_row) true headers s.current_y).bind fun hc =>
          if r = 0 then
            .ok { s with events := s.events ++ hc.1, current_y := hc.2, print_header := false }
          else
            (draw_cells ps s.table (r + min s.page_num 1 - s.current_row) false
                row hc.2).bind fun rc =>
              .ok { s with
                    events := (s.events ++ hc.1) ++ rc.1,
                    current_y := rc.2,
                    print_header := false }
      else
        (draw_cells ps s.table (r + min s.page_num 1 - s.current_row) false
            row s.current_y).bind fun rc =>
          .ok { s with events := s.events ++ rc.1, current_y := rc.2 } := by
  unfold add_table_step
  rw [if_neg hgt]

/-- One `add_table` iteration either leaves the table untouched or resets
its `position_y` to `height − margin_height`; no other field changes. -/
theorem add_table_step_table (ps : PageSize) (headers : List String) (r : Nat)
    (row : List String) (s s' : AddTableState)
    (h : add_table_step ps headers r row s = .ok s') :
    s'.table = s.table ∨
    s'.table = { s.table with position_y := ps.height - ps.margin_height } := by
  by_cases hbr : s.current_y ≤ ps.margin_height + 7.5
  · rw [add_table_step_break_eq ps headers r row s hbr] at h
    obtain ⟨hc, _, h⟩ := except_bind_ok h
    by_cases hr0 : r = 0
    · rw [if_pos hr0] at h
      injection h with h
      right; rw [← h]
    · rw [if_neg hr0] at h
      obtain ⟨rc, _, h⟩ := except_bind_ok h
      injection h with h
      right; rw [← h]
  · rw [add_table_step_nobreak_eq ps headers r row s hbr] at h
    by_cases hph : s.print_header
    · rw [if_pos hph] at h
      obtain ⟨hc, _, h⟩ := except_bind_ok h
      by_cases hr0 : r = 0
      · rw [if_pos hr0] at h
        injection h with h
        left; rw [← h]
      · rw [if_neg hr0] at h
        obtain ⟨rc, _, h⟩ := except_bind_ok h
        injection h with h
        left; rw [← h]
    · rw [if_neg hph] at h
      obtain ⟨rc, _, h⟩ := except_bind_ok h
      injection h with h
      left; rw [← h]

/-- The row loop either leaves the table untouched or resets its
`position_y` to `height − margin_height`; no other field changes. -/
theorem add_table_rows_table (ps : PageSize) (headers : List String) :
    ∀ (rows : List (List String)) (r : Nat) (s s' : AddTableState),
      add_table_rows ps headers r rows s = .ok s' →
      s'.table = s.table ∨
      s'.table = { s.table with position_y := ps.height - ps.margin_height } := by
  intro rows
  induction rows with
  | nil =>
    intro r s s' h
    unfold add_table_rows at h
    injection h with h
    left; rw [← h]
  | cons row rest ih =>
    intro r s s' h
    unfold add_table_rows at h
    obtain ⟨s1, hstep, h⟩ := except_bind_ok h
    rcases add_table_step_table ps headers r row s s1 hstep with h1 | h1 <;>
      rcases ih (r + 1) s1 s' h with h2 | h2
    · left; rw [h2, h1]
    · right; rw [h2, h1]
    · right; rw [h2, h1]
    · right; rw [h2, h1]

/- ------------------------------------------------------------------ -/
/- Claim theorems.                                                    -/
/- ------------------------------------------------------------------ -/

/-- C4: for every page size, table, in-range column and row,
`calculate_cell_coordinates` returns `y = position_y − (row_num+1)*row_height
− cell_padding` and `x = margin_width + (sum of the widths of the preceding
columns)*column_size + border_padding`, with `column_size =
inner_width / max_columns`, `cell_padding = 1` iff borders and
`border_padding = row_height*0.25` iff borders. -/
theorem cell_coordinates_formula (ps : PageSize) (t : Table) (c r : Nat)
    (hr : r < t.rows.length) (hc : c < t.columns.length) :
    calculate_cell_coordinates ps t c r = .ok
      (ps.margin_width +
         ((t.columns.take c).map (fun col => (col.width : ℚ))).sum *
           ((ps.width - ps.margin_width * 2) / (t.max_columns : ℚ)) +
         (if t.borders then t.row_height * 0.25 else 0),
       t.position_y - ((r : ℚ) + 1) * t.row_height - (if t.borders then 1 else 0)) :=
  calculate_cell_coordinates_eq ps t c r hr hc

/-- Witness for C4 at a concrete input: the default table geometry with two
rows on an A4 page, second column of the second row. -/
theorem cell_coordinates_formula_witness :
    calculate_cell_coordinates PageSize.A4
      { Table.default 100 with rows := [["h"], ["a"]] } 1 1 = .ok
      (10 + ((190 : ℚ) / 12) * 6, 100 - 2 * 7.5) := by
  have h := cell_coordinates_formula PageSize.A4
    { Table.default 100 with rows := [["h"], ["a"]] } 1 1 (by decide) (by decide)
  rw [h]
  norm_num [Table.default, PageSize.A4]

/-- C5: for every page size, table, in-range column and row,
`calculate_border_points` returns exactly four points in the order top-left,
top-right, bottom-right, bottom-left, with top y = `position_y −
row_height*0.5 − row_num*row_height`, bottom y = top y − row_height, left
x = `margin_width + (sum of widths before column_index)*column_size` and
right x the same sum including the current column. -/
theorem border_points_formula (ps : PageSize) (t : Table) (c r : Nat)
    (hr : r < t.rows.length) (hc : c < t.columns.length) :
    calculate_border_points ps t c r = .ok
      [((ps.margin_width + ((t.columns.take c).map (fun col => (col.width : ℚ))).sum *
           ((ps.width - ps.margin_width * 2) / (t.max_columns : ℚ)),
         t.position_y - t.row_height * 0.5 - (r : ℚ) * t.row_height), false),
       ((ps.margin_width + ((t.columns.take (c + 1)).map (fun col => (col.width : ℚ))).sum *
           ((ps.width - ps.margin_width * 2) / (t.max_columns : ℚ)),
         t.position_y - t.row_height * 0.5 - (r : ℚ) * t.row_height), false),
       ((ps.margin_width + ((t.columns.take (c + 1)).map (fun col => (col.width : ℚ))).sum *
           ((ps.width - ps.margin_width * 2) / (t.max_columns : ℚ)),
         t.position_y - t.row_height * 0.5 - (r : ℚ) * t.row_height - t.row_height), false),
       ((ps.margin_width + ((t.columns.take c).map (fun col => (col.width : ℚ))).sum *
           ((ps.width - ps.margin_width * 2) / (t.max_columns : ℚ)),
         t.position_y - t.row_height * 0.5 - (r : ℚ) * t.row_height - t.row_height), false)] :=
  calculate_border_points_eq ps t c r hr hc

/-- Witness for C5 at a concrete input: the one-cell bordered table. -/
theorem border_points_formula_witness :
    calculate_border_points PageSize.A4 cexTable 0 0 = .ok
      [((10, 96.25), false), ((200, 96.25), false),
       ((200, 88.75), false), ((10, 88.75), false)] := by
  have h := border_points_formula PageSize.A4 cexTable 0 0 (by decide) (by decide)
  rw [h]
  norm_num [cexTable, PageSize.A4]

/-- C6: `calculate_column_coordinates` with `column_index ≥ columns` fails
with `IndexOutOfRange` and never returns a value. -/
theorem column_coordinates_oob (ps : PageSize) (column_index columns : Nat) (y : ℚ)
    (h : columns ≤ column_index) :
    calculate_column_coordinates ps column_index columns y =
      .error LayoutError.IndexOutOfRange := by
  unfold calculate_column_coordinates
  rw [if_pos h]

/-- Witness for C6: the boundary case `column_index == columns`. -/
theorem column_coordinates_oob_witness :
    calculate_column_coordinates PageSize.A4 3 3 0 = .error LayoutError.IndexOutOfRange :=
  column_coordinates_oob PageSize.A4 3 3 0 (by decide)

/-- C7: for in-range `column_index`, the returned y is `min y inner_height`
— a one-sided clamp: any y at most `inner_height` (negative values included)
comes back unchanged, and no lower bound of 0 is enforced. -/
theorem column_coordinates_clamp (ps : PageSize) (column_index columns : Nat) (y : ℚ)
    (h : column_index < columns) :
    calculate_column_coordinates ps column_index columns y =
      .ok (ps.margin_width + ((ps.width - ps.margin_width * 2) / (columns : ℚ)) *
             (column_index : ℚ),
           min y (ps.height - ps.margin_height * 2)) ∧
    (y ≤ ps.height - ps.margin_height * 2 →
      min y (ps.height - ps.margin_height * 2) = y) := by
  constructor
  · unfold calculate_column_coordinates
    rw [if_neg (by omega)]
    rw [min_comm]
  · intro hle
    exact min_eq_left hle

/-- Witness for C7: a negative candidate y on an A4 page is returned
unchanged — no lower bound of 0 is enforced. -/
theorem column_coordinates_clamp_witness :
    calculate_column_coordinates PageSize.A4 0 2 (-5) = .ok (10, -5) := by
  have h := column_coordinates_clamp PageSize.A4 0 2 (-5) (by decide)
  rw [h.1]
  have h2 := h.2 (by norm_num [PageSize.A4])
  rw [h2]
  norm_num [PageSize.A4]

/-- C10: `calculate_border_points` does not read the table's `borders` flag:
two tables identical in every other field get identical border points. -/
theorem border_points_borders_independent (ps : PageSize)
    (rows : List (List String)) (columns : List Column) (position_y : ℚ)
    (max_columns : Nat) (row_height : ℚ) (b1 b2 : Bool) (c r : Nat) :
    calculate_border_points ps
        ⟨rows, columns, position_y, max_columns, b1, row_height⟩ c r =
      calculate_border_points ps
        ⟨rows, columns, position_y, max_columns, b2, row_height⟩ c r := rfl

/-- C2 counterexample: on the bordered one-cell table, border top y minus
cell anchor y is `4.75 = row_height*0.5 + 1`, not the claimed
`row_height*0.5 - row_height*0.25 - cell_padding = 0.875`. -/
theorem border_offset_claim_false :
    ∃ p rest x y,
      calculate_border_points PageSize.A4 cexTable 0 0 = .ok (p :: rest) ∧
      calculate_cell_coordinates PageSize.A4 cexTable 0 0 = .ok (x, y) ∧
      p.1.2 - y ≠ cexTable.row_height * 0.5 - cexTable.row_height * 0.25 - 1 := by
  refine ⟨((10, 96.25), false),
    [((200, 96.25), false), ((200, 88.75), false), ((10, 88.75), false)],
    11.875, 91.5, ?_, ?_, ?_⟩
  · have h := calculate_border_points_eq PageSize.A4 cexTable 0 0 (by decide) (by decide)
    rw [h]
    norm_num [cexTable, PageSize.A4]
  · have h := calculate_cell_coordinates_eq PageSize.A4 cexTable 0 0 (by decide) (by decide)
    rw [h]
    norm_num [cexTable, PageSize.A4]
  · norm_num [cexTable]

/-- C2 amended: with borders enabled, for every valid cell the top y of
`calculate_border_points` minus the y of `calculate_cell_coordinates`
equals `row_height*0.5 + cell_padding = row_height*0.5 + 1`, exactly. -/
theorem border_top_minus_cell_anchor (ps : PageSize) (t : Table) (c r : Nat)
    (hb : t.borders = true) (hr : r < t.rows.length) (hc : c < t.columns.length) :
    ∀ p rest x y,
      calculate_border_points ps t c r = .ok (p :: rest) →
      calculate_cell_coordinates ps t c r = .ok (x, y) →
      p.1.2 - y = t.row_height * 0.5 + 1 := by
  intro p rest x y hbp hcc
  rw [calculate_border_points_eq ps t c r hr hc] at hbp
  rw [calculate_cell_coordinates_eq ps t c r hr hc] at hcc
  have hp : p = ((ps.margin_width + ((t.columns.take c).map (fun col => (col.width : ℚ))).sum *
      ((ps.width - ps.margin_width * 2) / (t.max_columns : ℚ)),
    t.position_y - t.row_height * 0.5 - (r : ℚ) * t.row_height), false) := by
    injection hbp with h1
    exact (List.cons.injEq _ _ _ _ ▸ h1).1.symm ▸ rfl
  have hy : y = t.position_y - ((r : ℚ) + 1) * t.row_height - (if t.borders then 1 else 0) := by
    injection hcc with h2
    exact (Prod.ext_iff.mp h2).2.symm
  rw [hp, hy, hb]
  simp only [if_true]
  ring

/-- Witness for the amended C2 at the bordered one-cell table:
`96.25 − 91.5 = 7.5*0.5 + 1`. -/
theorem border_top_minus_cell_anchor_witness :
    ((10 : ℚ), (96.25 : ℚ)).2 - 91.5 = cexTable.row_height * 0.5 + 1 := by
  refine border_top_minus_cell_anchor PageSize.A4 cexTable 0 0 rfl (by decide) (by decide)
    ((10, 96.25), false)
    [((200, 96.25), false), ((200, 88.75), false), ((10, 88.75), false)]
    11.875 91.5 ?_ ?_
  · rw [calculate_border_points_eq PageSize.A4 cexTable 0 0 (by decide) (by decide)]
    norm_num [cexTable, PageSize.A4]
  · rw [calculate_cell_coordinates_eq PageSize.A4 cexTable 0 0 (by decide) (by decide)]
    norm_num [cexTable, PageSize.A4]

/-- C3: encoding `"HELLO123"` at height 50 yields a pixel buffer of height
exactly 50 and positive width; encoding the empty string fails with
`EncodingError`. -/
theorem generate_barcode_round_trip :
    (∃ buf, generate_barcode "HELLO123" 50 = .ok buf ∧ buf.height = 50 ∧ 0 < buf.width) ∧
    generate_barcode "" 50 = .error LayoutError.EncodingError := by
  constructor
  · refine ⟨rasterize_modules
      (code128_start ++ "HELLO123".data.flatMap code128_char_modules ++ code128_stop) 50,
      ?_, rfl, by decide⟩
    rfl
  · rfl

/-- C1: whenever, at the start of processing row `r`, the cursor is at or
below `margin_height + 7.5`, the step performs a page break: exactly one
new page and layer are requested (`page_num` and the layer handle advance
by one, and the appended trace holds a single `newPage` event), the row
offset `current_row` is set to `r`, the table's `position_y` is reset to
`page_height − margin_height`, and the header row is drawn at the top of
the new page (row-local index 0) before that row's cells. -/
theorem add_table_step_page_break (ps : PageSize) (headers row : List String)
    (r : Nat) (s s' : AddTableState)
    (hle : s.current_y ≤ ps.margin_height + 7.5)
    (hok : add_table_step ps headers r row s = .ok s') :
    s'.current_row = r ∧
    s'.table.position_y = ps.height - ps.margin_height ∧
    s'.page_num = s.page_num + 1 ∧
    s'.layer = s.layer + 1 ∧
    ∃ hEvs hcy,
      draw_cells ps { s.table with position_y := ps.height - ps.margin_height } 0 true
        headers s.current_y = .ok (hEvs, hcy) ∧
      (∀ e ∈ hEvs, e.isNewPage = false) ∧
      ((r = 0 ∧ s'.events = s.events ++
          (RenderEvent.newPage ps.width ps.height (toString (s.page_num + 1)) :: hEvs)) ∨
       (r ≠ 0 ∧ ∃ rEvs rcy,
          draw_cells ps { s.table with position_y := ps.height - ps.margin_height } 1 false
            row hcy = .ok (rEvs, rcy) ∧
          (∀ e ∈ rEvs, e.isNewPage = false) ∧
          s'.events = s.events ++
            (RenderEvent.newPage ps.width ps.height (toString (s.page_num + 1)) ::
              (hEvs ++ rEvs)))) := by
  rw [add_table_step_break_eq ps headers r row s hle] at hok
  obtain ⟨hc, hdc, hok⟩ := except_bind_ok hok
  obtain ⟨hEvs, hcy⟩ := hc
  simp only [] at hok
  by_cases hr0 : r = 0
  · rw [if_pos hr0] at hok
    injection hok with hok
    subst hok
    refine ⟨rfl, rfl, rfl, rfl, hEvs, hcy, hdc,
      draw_cells_no_newPage ps _ 0 true headers s.current_y hcy hEvs hdc,
      Or.inl ⟨hr0, ?_⟩⟩
    simp
  · rw [if_neg hr0] at hok
    obtain ⟨rc, hdc2, hok⟩ := except_bind_ok hok
    obtain ⟨rEvs, rcy⟩ := rc
    simp only [] at hok
    injection hok with hok
    subst hok
    refine ⟨rfl, rfl, rfl, rfl, hEvs, hcy, hdc,
      draw_cells_no_newPage ps _ 0 true headers s.current_y hcy hEvs hdc,
      Or.inr ⟨hr0, rEvs, rcy, hdc2,
        draw_cells_no_newPage ps _ 1 false row hcy rcy rEvs hdc2, ?_⟩⟩
    simp

/-- Witness for C1: from the exhausted mid-run state `wBreakState`,
processing row 1 breaks the page, reprints the header and draws the row. -/
theorem add_table_step_page_break_witness :
    ∃ s', add_table_step PageSize.A4 ["H"] 1 ["a"] wBreakState = .ok s' ∧
      s'.current_row = 1 ∧
      s'.table.position_y = PageSize.A4.height - PageSize.A4.margin_height ∧
      s'.page_num = wBreakState.page_num + 1 ∧ s'.layer = wBreakState.layer + 1 := by
  have hok : add_table_step PageSize.A4 ["H"] 1 ["a"] wBreakState = .ok wBreakOut := by
    norm_num [add_table_step, pageBreak, draw_cells, draw_cells_from, border_part,
      calculate_cell_coordinates, Except.bind, wBreakState, wBreakOut, wT2, PageSize.A4]
  have h := add_table_step_page_break PageSize.A4 ["H"] ["a"] 1 wBreakState wBreakOut
    (by norm_num [wBreakState, PageSize.A4]) hok
  exact ⟨wBreakOut, hok, h.1, h.2.1, h.2.2.1, h.2.2.2.1⟩

/-- C8: the header row must exist: with an empty row sequence, `add_table`
fails and produces no layout; with at least one row, the header access
succeeds and the run proceeds with the first row as the header. -/
theorem add_table_header_required (t : Table) (ps : PageSize) (y : ℚ) :
    (t.rows.length = 0 → add_table t ps y = .error LayoutError.IndexOutOfRange) ∧
    (0 < t.rows.length → ∃ headers, t.rows.head? = some headers ∧
      add_table t ps y = add_table_rows ps headers 0 t.rows (add_table_init t y)) := by
  constructor
  · intro h0
    unfold add_table
    rw [List.length_eq_zero.mp h0]
    rfl
  · intro hpos
    cases ht : t.rows with
    | nil => rw [ht] at hpos; exact absurd hpos (by simp)
    | cons hd tl =>
      refine ⟨hd, rfl, ?_⟩
      unfold add_table
      rw [ht]
      rfl

/-- Witness for C8: an empty-rows table fails; `wTable` has a header. -/
theorem add_table_header_required_witness :
    add_table { wTable with rows := [] } PageSize.A4 100 =
      .error LayoutError.IndexOutOfRange ∧
    ∃ headers, wTable.rows.head? = some headers := by
  constructor
  · exact (add_table_header_required { wTable with rows := [] } PageSize.A4 100).1 rfl
  · obtain ⟨headers, h1, _⟩ :=
      (add_table_header_required wTable PageSize.A4 100).2 (by decide)
    exact ⟨headers, h1⟩

/-- C9: a successful `add_table` run mutates only the table's `position_y`:
`rows`, `columns`, `max_columns`, `borders` and `row_height` are unchanged,
and `position_y` is either untouched or holds `height − margin_height`, the
only value a page break assigns. -/
theorem add_table_frame (t : Table) (ps : PageSize) (y : ℚ) (s' : AddTableState)
    (h : add_table t ps y = .ok s') :
    s'.table.rows = t.rows ∧ s'.table.columns = t.columns ∧
    s'.table.max_columns = t.max_columns ∧ s'.table.borders = t.borders ∧
    s'.table.row_height = t.row_height ∧
    (s'.table.position_y = t.position_y ∨
     s'.table.position_y = ps.height - ps.margin_height) := by
  unfold add_table at h
  cases ht : t.rows with
  | nil =>
    rw [ht] at h
    exact absurd h (fun hh => Except.noConfusion hh)
  | cons hd tl =>
    rw [ht] at h
    have hframe := add_table_rows_table ps hd (hd :: tl) 0 (add_table_init t y) s' h
    rcases hframe with h1 | h1
    · rw [show (add_table_init t y).table = t from rfl] at h1
      rw [h1]
      exact ⟨ht, rfl, rfl, rfl, rfl, Or.inl rfl⟩
    · rw [show (add_table_init t y).table = t from rfl] at h1
      rw [h1]
      exact ⟨ht, rfl, rfl, rfl, rfl, Or.inr rfl⟩

/-- Witness for C9: a one-row borderless table laid out without a break
keeps its table fields, `position_y` included. -/
theorem add_table_frame_witness :
    ∃ s', add_table wTable PageSize.A4 100 = .ok s' ∧
      s'.table.rows = wTable.rows ∧
      (s'.table.position_y = wTable.position_y ∨
       s'.table.position_y = PageSize.A4.height - PageSize.A4.margin_height) := by
  have hok : add_table wTable PageSize.A4 100 = .ok wState := by
    norm_num [add_table, add_table_rows, add_table_step, add_table_init, draw_cells,
      draw_cells_from, border_part, calculate_cell_coordinates, pageBreak, Except.bind,
      wTable, wState, PageSize.A4]
  have h := add_table_frame wTable PageSize.A4 100 wState hok
  exact ⟨wState, hok, h.1, h.2.2.2.2.2⟩
